import Mathlib

/-!
Shallow embedding of `moonrhythm/cloudreposlackhook` (`src/main.go`): a
notification bridge that decodes Cloud Source Repositories change events and
posts formatted alerts to a Slack webhook.  Pure functions of the Go source
are translated to Lean functions; effectful parts (the Slack HTTP delivery,
the Pub/Sub acknowledge calls, JSON decoding) are modelled by explicit
oracles/parameters and by instrumented results recording the trace of
side effects (messages sent, acknowledge decisions issued).
-/

/- ### MD5 (`crypto/md5`, used by `gravatarURL`)

Bytes are `Nat` values `< 256`; 32-bit words are `Nat` values `< 2^32` with
arithmetic taken `% 2^32` where Go would overflow. -/

/-- Addition of two 32-bit words modulo `2^32`. -/
def add32 (a b : Nat) : Nat := (a + b) % 4294967296

/-- Left rotation of a 32-bit word by `n` bits (`0 ≤ n ≤ 32`), expressed
arithmetically: the low `32 - n` bits shifted up plus the high `n` bits. -/
def rotl32 (x n : Nat) : Nat := (x % 2 ^ (32 - n)) * 2 ^ n + x / 2 ^ (32 - n)

/-- The 64 MD5 sine-derived round constants `⌊|sin (i+1)| · 2^32⌋`. -/
def md5K : List Nat :=
  [3614090360, 3905402710, 606105819, 3250441966, 4118548399, 1200080426,
   2821735955, 4249261313, 1770035416, 2336552879, 4294925233, 2304563134,
   1804603682, 4254626195, 2792965006, 1236535329, 4129170786, 3225465664,
   643717713, 3921069994, 3593408605, 38016083, 3634488961, 3889429448,
   568446438, 3275163606, 4107603335, 1163531501, 2850285829, 4243563512,
   1735328473, 2368359562, 4294588738, 2272392833, 1839030562, 4259657740,
   2763975236, 1272893353, 4139469664, 3200236656, 681279174, 3936430074,
   3572445317, 76029189, 3654602809, 3873151461, 530742520, 3299628645,
   4096336452, 1126891415, 2878612391, 4237533241, 1700485571, 2399980690,
   4293915773, 2240044497, 1873313359, 4264355552, 2734768916, 1309151649,
   4149444226, 3174756917, 718787259, 3951481745]

/-- The 64 MD5 per-round left-rotation amounts. -/
def md5S : List Nat :=
  [7, 12, 17, 22, 7, 12, 17, 22, 7, 12, 17, 22, 7, 12, 17, 22,
   5, 9, 14, 20, 5, 9, 14, 20, 5, 9, 14, 20, 5, 9, 14, 20,
   4, 11, 16, 23, 4, 11, 16, 23, 4, 11, 16, 23, 4, 11, 16, 23,
   6, 10, 15, 21, 6, 10, 15, 21, 6, 10, 15, 21, 6, 10, 15, 21]

/-- One MD5 round: `m` is the 16-word message block, `st` the `(a,b,c,d)`
state, `i` the round index `0 ≤ i < 64`. -/
def md5Round (m : List Nat) (st : Nat × Nat × Nat × Nat) (i : Nat) :
    Nat × Nat × Nat × Nat :=
  let a := st.1
  let b := st.2.1
  let c := st.2.2.1
  let d := st.2.2.2
  let f :=
    if i < 16 then (b &&& c) ||| ((b ^^^ 4294967295) &&& d)
    else if i < 32 then (d &&& b) ||| ((d ^^^ 4294967295) &&& c)
    else if i < 48 then b ^^^ c ^^^ d
    else c ^^^ (b ||| (d ^^^ 4294967295))
  let g :=
    if i < 16 then i
    else if i < 32 then (5 * i + 1) % 16
    else if i < 48 then (3 * i + 5) % 16
    else (7 * i) % 16
  let t := add32 (add32 (add32 a f) (md5K.getD i 0)) (m.getD g 0)
  (d, add32 b (rotl32 t (md5S.getD i 0)), b, c)

/-- Process one 512-bit chunk (given as its 16 little-endian words). -/
def md5Chunk (st : Nat × Nat × Nat × Nat) (m : List Nat) :
    Nat × Nat × Nat × Nat :=
  let r := (List.range 64).foldl (md5Round m) st
  (add32 st.1 r.1, add32 st.2.1 r.2.1, add32 st.2.2.1 r.2.2.1,
   add32 st.2.2.2 r.2.2.2)

/-- An 8-byte little-endian encoding of `n` (the bit-length field). -/
def le64 (n : Nat) : List Nat :=
  [n % 256, n / 256 % 256, n / 65536 % 256, n / 16777216 % 256,
   n / 4294967296 % 256, n / 1099511627776 % 256,
   n / 281474976710656 % 256, n / 72057594037927936 % 256]

/-- A 4-byte little-endian encoding of a 32-bit word. -/
def le32 (n : Nat) : List Nat :=
  [n % 256, n / 256 % 256, n / 65536 % 256, n / 16777216 % 256]

/-- MD5 padding: append `0x80`, zeros to 56 mod 64, then the 64-bit
little-endian bit length. -/
def md5Pad (msg : List Nat) : List Nat :=
  msg ++ 128 :: List.replicate ((120 - (msg.length + 1) % 64) % 64) 0 ++
    le64 (8 * msg.length % 18446744073709551616)

/-- The `j`-th little-endian 32-bit word of a 64-byte chunk. -/
def le32word (chunk : List Nat) (j : Nat) : Nat :=
  chunk.getD (4 * j) 0 + 256 * chunk.getD (4 * j + 1) 0 +
    65536 * chunk.getD (4 * j + 2) 0 + 16777216 * chunk.getD (4 * j + 3) 0

/-- The 16 words of a 64-byte chunk. -/
def chunkWords (chunk : List Nat) : List Nat :=
  (List.range 16).map (le32word chunk)

/-- Run the MD5 compression over all 64-byte blocks of the padded message. -/
def md5State (msg : List Nat) : Nat × Nat × Nat × Nat :=
  let padded := md5Pad msg
  (List.range (padded.length / 64)).foldl
    (fun st i => md5Chunk st (chunkWords ((padded.drop (64 * i)).take 64)))
    (1732584193, 4023233417, 2562383102, 271733878)

/-- The 16-byte MD5 digest of a byte list (Go `md5.Sum`). -/
def md5 (msg : List Nat) : List Nat :=
  le32 (md5State msg).1 ++ le32 (md5State msg).2.1 ++
    le32 (md5State msg).2.2.1 ++ le32 (md5State msg).2.2.2

/-- The lowercase hex digit for a nibble `0 ≤ n < 16`: index `n` of the
alphabet of Go's `hex.EncodeToString` (indices `≥ 16` never occur for
digest bytes; the total model defaults them to `'0'`). -/
def hexChar (n : Nat) : Char :=
  "0123456789abcdef".toList.getD n '0'

/-- Lowercase hex encoding of a byte list (Go `hex.EncodeToString`). -/
def hexBytes (l : List Nat) : List Char :=
  (l.map fun b => [hexChar (b / 16), hexChar (b % 16)]).flatten

/-- The lowercase hex MD5 digest of a byte list. -/
def md5hex (msg : List Nat) : String :=
  String.mk (hexBytes (md5 msg))

/-- UTF-8 encoding of one character, as byte values. -/
def utf8Bytes (c : Char) : List Nat :=
  let n := c.toNat
  if n < 128 then [n]
  else if n < 2048 then [192 + n / 64, 128 + n % 64]
  else if n < 65536 then
    [224 + n / 4096, 128 + n / 64 % 64, 128 + n % 64]
  else
    [240 + n / 262144, 128 + n / 4096 % 64, 128 + n / 64 % 64, 128 + n % 64]

/-- The UTF-8 bytes of a string (Go `[]byte(s)`). -/
def strBytes (s : String) : List Nat :=
  (s.toList.map utf8Bytes).flatten

/-- `gravatarURL` from `src/main.go`: empty e-mail gives the empty string,
otherwise the gravatar URL built from the lowercase hex MD5 of the raw
(untrimmed) e-mail bytes. -/
def gravatarURL (email : String) : String :=
  if email = "" then ""
  else "http://gravatar.com/avatar/" ++ md5hex (strBytes email)

set_option maxRecDepth 4000

/- ### String splitting (`strings.SplitN(s, "/", n)`)

Go's `strings.SplitN(s, sep, n)` with `n > 0` returns at most `n`
substrings; the last one holds the unsplit remainder. -/

/-- Split a character list at the first occurrence of `sep`: `none` when
`sep` does not occur, otherwise the parts before and after it. -/
def breakAt (sep : Char) : List Char → Option (List Char × List Char)
  | [] => none
  | c :: cs =>
    if c = sep then some ([], cs)
    else
      match breakAt sep cs with
      | none => none
      | some (pre, post) => some (c :: pre, post)

/-- At most `n` pieces of a character list, splitting on `sep`; the `n`-th
piece keeps the remaining separators (Go `strings.SplitN` semantics). -/
def splitCharN (sep : Char) : Nat → List Char → List (List Char)
  | 0, s => [s]
  | 1, s => [s]
  | n + 2, s =>
    match breakAt sep s with
    | none => [s]
    | some (pre, post) => pre :: splitCharN sep (n + 1) post

/-- Go `strings.SplitN (s, sep, n)` for a single-character separator. -/
def splitN (s : String) (sep : Char) (n : Nat) : List String :=
  (splitCharN sep n s.toList).map String.mk

/- ### Data model (`src/main.go` types)

Go's `map[string]updateEvent` is modelled as an association list in some
iteration order; Go map iteration order is unspecified, so theorems
quantify over all orders.  `time.Time` carries no behaviour here and is
modelled as a `Nat`. -/

/-- `updateEvent` from `src/main.go`: one ref (branch) mutation. -/
structure updateEvent where
  RefName : String
  UpdateType : String
  OldID : String
  NewID : String
deriving DecidableEq

/-- The `refUpdateEvent` sub-object of `data`. -/
structure refUpdateEvent where
  Email : String
  RefUpdates : List (String × updateEvent)
deriving DecidableEq

/-- `data` from `src/main.go`: one decoded queue envelope. -/
structure data where
  Name : String
  URL : String
  EventTime : Nat
  RefUpdateEvent : refUpdateEvent
deriving DecidableEq

/-- `slackField` from `src/main.go`. -/
structure slackField where
  Title : String
  Value : String
  Short : Bool
deriving DecidableEq

/-- `slackAttachment` from `src/main.go`; fields the builder leaves unset
hold Go's zero values. -/
structure slackAttachment where
  Fallback : String
  Color : String
  Pretext : String
  AuthorName : String
  AuthorLink : String
  AuthorIcon : String
  Title : String
  TitleLink : String
  Text : String
  Fields : List slackField
  ImageURL : String
  ThumbURL : String
  Footer : String
  FooterIcon : String
  Timestamp : Int
deriving DecidableEq

/-- `slackMsg` from `src/main.go`. -/
structure slackMsg where
  Text : String
  Attachments : List slackAttachment
deriving DecidableEq

/-- `updateTypeColor` from `src/main.go`: the classification→color map;
a missing key yields Go's zero value `""`. -/
def updateTypeColor (t : String) : String :=
  if t = "CREATE" then "#2e77ff"
  else if t = "UPDATE_FAST_FORWARD" then "#60ff55"
  else if t = "UPDATE_NON_FAST_FORWARD" then "#ff2e2e"
  else if t = "DELETE" then "#ff6d2e"
  else ""

/- ### The pipeline (`processUpdateEvent`, `processData`)

`sendSlackMessage` is effectful, so the pipeline is parameterised by a
delivery function `send`; each result is paired with the list of messages
whose delivery was attempted, so theorems can speak about deliveries. -/

/-- `processUpdateEvent` from `src/main.go`, instrumented: the result and
the list of messages handed to `send`.  Skips (unrecognised update type,
resource name not splitting into 4 parts) return `ok` with no delivery. -/
def processUpdateEvent (send : slackMsg → Except String Unit) (d : data)
    (ev : updateEvent) : Except String Unit × List slackMsg :=
  let color := updateTypeColor ev.UpdateType
  if color = "" then (Except.ok (), [])
  else
    let xs := splitN d.Name '/' 4
    if xs.length ≠ 4 then (Except.ok (), [])
    else
      let projectID := xs.getD 1 ""
      let repoName := xs.getD 3 ""
      let commitURL := "https://source.cloud.google.com/" ++ projectID ++
        "/" ++ repoName ++ "/+/" ++ ev.NewID
      let msg : slackMsg :=
        { Text := ""
          Attachments := [
            { Fallback := d.Name ++ ":" ++ ev.RefName
              Color := color
              Pretext := ""
              AuthorName := d.RefUpdateEvent.Email
              AuthorLink := ""
              AuthorIcon := gravatarURL d.RefUpdateEvent.Email
              Title := "Cloud Repo"
              TitleLink := commitURL
              Text := ""
              Fields := [
                { Title := "Repository", Value := d.Name, Short := false },
                { Title := "Branch", Value := ev.RefName, Short := false },
                { Title := "Email", Value := d.RefUpdateEvent.Email,
                  Short := false },
                { Title := "Update Type", Value := ev.UpdateType,
                  Short := false },
                { Title := "Commit SHA", Value := ev.NewID, Short := false }]
              ImageURL := ""
              ThumbURL := ""
              Footer := ""
              FooterIcon := ""
              Timestamp := 0 }] }
      (send msg, [msg])

/-- The loop of `processData` over the envelope's ref updates in a given
iteration order: the result, the delivery trace, and how many ref updates
were examined (mapping steps) before returning. -/
def processDataLoop (send : slackMsg → Except String Unit) (d : data) :
    List (String × updateEvent) → Except String Unit × List slackMsg × Nat
  | [] => (Except.ok (), [], 0)
  | kv :: rest =>
    match processUpdateEvent send d kv.2 with
    | (Except.error e, tr) => (Except.error e, tr, 1)
    | (Except.ok _, tr) =>
      match processDataLoop send d rest with
      | (r, tr2, n) => (r, tr ++ tr2, n + 1)

/-- `processData` from `src/main.go`, instrumented like the loop. -/
def processData (send : slackMsg → Except String Unit) (d : data) :
    Except String Unit × List slackMsg × Nat :=
  processDataLoop send d d.RefUpdateEvent.RefUpdates

/- ### Delivery (`sendSlackMessage`)

The HTTP side is an oracle: JSON encoding may fail, building the request
may fail, performing it yields a network error or a status code. -/

/-- The outcome of performing one HTTP request. -/
inductive NetResp where
  | err (e : String)
  | status (code : Nat)
deriving DecidableEq

/-- The effectful collaborators of `sendSlackMessage`: `json.Encoder`,
`http.NewRequest` and `client.Do`. -/
structure Transport where
  encode : slackMsg → Except String (List Nat)
  newRequest : String → List Nat → Except String Unit
  doRequest : List Nat → NetResp

/-- `sendSlackMessage` from `src/main.go`, instrumented: the result,
the number of serialization attempts, and the number of HTTP requests
performed.  An empty configured URL is an immediate success. -/
def sendSlackMessage (url : String) (tp : Transport) (message : slackMsg) :
    Except String Unit × Nat × Nat :=
  if url = "" then (Except.ok (), 0, 0)
  else
    match tp.encode message with
    | Except.error e => (Except.error e, 1, 0)
    | Except.ok body =>
      match tp.newRequest url body with
      | Except.error e => (Except.error e, 1, 0)
      | Except.ok _ =>
        match tp.doRequest body with
        | NetResp.err e => (Except.error e, 1, 1)
        | NetResp.status code =>
          if code ≠ 200 then (Except.error "response not ok", 1, 1)
          else (Except.ok (), 1, 1)

/- ### Pull ingress (`startPull`'s receive callback)

The callback runs `defer msg.Ack()` first, so the deferred acknowledge
fires on every return path, after any explicit `msg.Nack()`.  The handler
is modelled as the ordered list of acknowledge calls it issues; JSON
decoding is an oracle. -/

/-- One Pub/Sub acknowledge call. -/
inductive AckDecision where
  | ack
  | nack
deriving DecidableEq

/-- The receive callback of `startPull` from `src/main.go`: the ordered
acknowledge calls issued for one message whose payload decodes via
`decode` while deliveries behave as `send`. -/
def pullHandler (decode : List Nat → Option data)
    (send : slackMsg → Except String Unit) (msgData : List Nat) :
    List AckDecision :=
  match decode msgData with
  | none => [AckDecision.ack]
  | some d =>
    match (processData send d).1 with
    | Except.error _ => [AckDecision.nack, AckDecision.ack]
    | Except.ok _ => [AckDecision.ack]

/-- Equality of `Except` results is decidable when it is on both sides. -/
instance {ε α : Type} [DecidableEq ε] [DecidableEq α] :
    DecidableEq (Except ε α) := fun a b =>
  match a, b with
  | Except.ok x, Except.ok y =>
    if h : x = y then isTrue (by rw [h])
    else isFalse fun hh => h (Except.ok.inj hh)
  | Except.ok _, Except.error _ => isFalse fun hh => Except.noConfusion hh
  | Except.error _, Except.ok _ => isFalse fun hh => Except.noConfusion hh
  | Except.error x, Except.error y =>
    if h : x = y then isTrue (by rw [h])
    else isFalse fun hh => h (Except.error.inj hh)

/- ### Concrete inputs for witnesses and counterexamples -/

/-- A `CREATE` ref update on `refs/heads/main` with commit id `abc123`
(end-to-end scenario 1 of the spec). -/
def evEx : updateEvent :=
  { RefName := "refs/heads/main", UpdateType := "CREATE", OldID := "",
    NewID := "abc123" }

/-- The end-to-end scenario 1 envelope: resource name
`projects/p1/repos/r1`, author `a@b.com`, one `CREATE` update. -/
def dEx : data :=
  { Name := "projects/p1/repos/r1", URL := "", EventTime := 0,
    RefUpdateEvent := { Email := "a@b.com", RefUpdates := [("x", evEx)] } }

/-- An envelope whose resource name has five `/`-separated segments. -/
def dFive : data :=
  { Name := "projects/p1/repos/r1/extra", URL := "", EventTime := 0,
    RefUpdateEvent := { Email := "a@b.com", RefUpdates := [("x", evEx)] } }

/-- An envelope whose resource name has only three `/`-separated
segments. -/
def dShort : data :=
  { Name := "projects/p1/repos", URL := "", EventTime := 0,
    RefUpdateEvent := { Email := "a@b.com", RefUpdates := [("x", evEx)] } }

/-- An envelope with no ref updates. -/
def dEmpty : data :=
  { Name := "projects/p1/repos/r1", URL := "", EventTime := 0,
    RefUpdateEvent := { Email := "a@b.com", RefUpdates := [] } }

/-- The scenario-1 update with an unrecognised classification. -/
def evUnknown : updateEvent :=
  { RefName := "refs/heads/main", UpdateType := "UNKNOWN", OldID := "",
    NewID := "abc123" }

/-- A `DELETE` ref update on `refs/heads/dev`. -/
def evDel : updateEvent :=
  { RefName := "refs/heads/dev", UpdateType := "DELETE", OldID := "",
    NewID := "def456" }

/-- An envelope whose iteration order holds a succeeding update, then one
whose delivery fails under `sendTwoFn`, then another update. -/
def dTwo : data :=
  { Name := "projects/p1/repos/r1", URL := "", EventTime := 0,
    RefUpdateEvent :=
      { Email := "a@b.com",
        RefUpdates := [("x", evEx), ("y", evDel), ("z", evEx)] } }

/-- A delivery oracle that fails exactly on messages colored as `DELETE`
(the second update of `dTwo`) and succeeds otherwise. -/
def sendTwoFn : slackMsg → Except String Unit := fun m =>
  if m.Attachments.map slackAttachment.Color = ["#ff6d2e"] then
    Except.error "second down"
  else Except.ok ()

/-- A delivery oracle that always succeeds. -/
def sendOkFn : slackMsg → Except String Unit := fun _ => Except.ok ()

/-- A delivery oracle that always fails. -/
def sendFailFn : slackMsg → Except String Unit := fun _ => Except.error "boom"

/-- A transport whose serialization, request construction and request all
succeed with status 200. -/
def tpOk : Transport :=
  { encode := fun _ => Except.ok [1]
    newRequest := fun _ _ => Except.ok ()
    doRequest := fun _ => NetResp.status 200 }

/-- A message with no attachments. -/
def msgEmpty : slackMsg := { Text := "", Attachments := [] }

/- ### Helper lemmas -/

/-- The MD5 digest always has 16 bytes (128 bits). -/
lemma md5_length (msg : List Nat) : (md5 msg).length = 16 := by
  simp [md5, le32]

/-- Hex encoding doubles the byte count. -/
lemma hexBytes_length (l : List Nat) : (hexBytes l).length = 2 * l.length := by
  induction l with
  | nil => rfl
  | cons b rest ih =>
    simp only [hexBytes, List.map_cons, List.flatten_cons,
      List.length_append, List.length_cons, List.length_nil] at ih ⊢
    omega

/-- Every hex digit character is from the lowercase alphabet. -/
lemma hexChar_mem (n : Nat) : hexChar n ∈ "0123456789abcdef".toList := by
  unfold hexChar
  rcases Nat.lt_or_ge n "0123456789abcdef".toList.length with h | h
  · rw [List.getD_eq_getElem _ _ h]
    exact List.getElem_mem h
  · rw [List.getD_eq_default _ _ h]
    decide

/-- Every character of a hex encoding is from the lowercase alphabet. -/
lemma hexBytes_mem (l : List Nat) :
    ∀ c ∈ hexBytes l, c ∈ "0123456789abcdef".toList := by
  intro c hc
  unfold hexBytes at hc
  rw [List.mem_flatten] at hc
  obtain ⟨s, hs, hcs⟩ := hc
  rw [List.mem_map] at hs
  obtain ⟨b, _, rfl⟩ := hs
  simp only [List.mem_cons, List.mem_singleton] at hcs
  rcases hcs with rfl | rfl | hfalse
  · exact hexChar_mem _
  · exact hexChar_mem _
  · exact absurd hfalse (List.not_mem_nil c)

/-- The loop returns the failing step's error and trace as soon as a step
fails. -/
lemma processDataLoop_cons_error (send : slackMsg → Except String Unit)
    (d : data) (k : String) (ev : updateEvent)
    (rest : List (String × updateEvent)) (e : String)
    (h : (processUpdateEvent send d ev).1 = Except.error e) :
    processDataLoop send d ((k, ev) :: rest) =
      (Except.error e, (processUpdateEvent send d ev).2, 1) := by
  rcases hev : processUpdateEvent send d ev with ⟨r, tr⟩
  rw [hev] at h
  simp only [processDataLoop, hev]
  cases r with
  | error e2 => cases h; rfl
  | ok u => exact absurd h (by simp)

/-- The loop steps past a successful step, keeping its trace and counting
the mapping step. -/
lemma processDataLoop_cons_ok (send : slackMsg → Except String Unit)
    (d : data) (k : String) (ev : updateEvent)
    (rest : List (String × updateEvent))
    (h : (processUpdateEvent send d ev).1 = Except.ok ()) :
    processDataLoop send d ((k, ev) :: rest) =
      ((processDataLoop send d rest).1,
       (processUpdateEvent send d ev).2 ++ (processDataLoop send d rest).2.1,
       (processDataLoop send d rest).2.2 + 1) := by
  rcases hev : processUpdateEvent send d ev with ⟨r, tr⟩
  rw [hev] at h
  simp only [processDataLoop, hev]
  cases r with
  | error e2 => exact absurd h (by simp)
  | ok u =>
    rcases hrest : processDataLoop send d rest with ⟨r2, tr2, n⟩
    rfl

/-- A non-skipped ref update (recognised classification, 4-part resource
name) sends exactly the message built by the formatter, and its result is
that delivery's result. -/
lemma processUpdateEvent_not_skipped (send : slackMsg → Except String Unit)
    (d : data) (ev : updateEvent)
    (hc : updateTypeColor ev.UpdateType ≠ "")
    (h4 : (splitN d.Name '/' 4).length = 4) :
    processUpdateEvent send d ev =
      (send
        { Text := ""
          Attachments := [
            { Fallback := d.Name ++ ":" ++ ev.RefName
              Color := updateTypeColor ev.UpdateType
              Pretext := ""
              AuthorName := d.RefUpdateEvent.Email
              AuthorLink := ""
              AuthorIcon := gravatarURL d.RefUpdateEvent.Email
              Title := "Cloud Repo"
              TitleLink := "https://source.cloud.google.com/" ++
                (splitN d.Name '/' 4).getD 1 "" ++ "/" ++
                (splitN d.Name '/' 4).getD 3 "" ++ "/+/" ++ ev.NewID
              Text := ""
              Fields := [
                { Title := "Repository", Value := d.Name, Short := false },
                { Title := "Branch", Value := ev.RefName, Short := false },
                { Title := "Email", Value := d.RefUpdateEvent.Email,
                  Short := false },
                { Title := "Update Type", Value := ev.UpdateType,
                  Short := false },
                { Title := "Commit SHA", Value := ev.NewID,
                  Short := false }]
              ImageURL := ""
              ThumbURL := ""
              Footer := ""
              FooterIcon := ""
              Timestamp := 0 }] },
       [{ Text := ""
          Attachments := [
            { Fallback := d.Name ++ ":" ++ ev.RefName
              Color := updateTypeColor ev.UpdateType
              Pretext := ""
              AuthorName := d.RefUpdateEvent.Email
              AuthorLink := ""
              AuthorIcon := gravatarURL d.RefUpdateEvent.Email
              Title := "Cloud Repo"
              TitleLink := "https://source.cloud.google.com/" ++
                (splitN d.Name '/' 4).getD 1 "" ++ "/" ++
                (splitN d.Name '/' 4).getD 3 "" ++ "/+/" ++ ev.NewID
              Text := ""
              Fields := [
                { Title := "Repository", Value := d.Name, Short := false },
                { Title := "Branch", Value := ev.RefName, Short := false },
                { Title := "Email", Value := d.RefUpdateEvent.Email,
                  Short := false },
                { Title := "Update Type", Value := ev.UpdateType,
                  Short := false },
                { Title := "Commit SHA", Value := ev.NewID,
                  Short := false }]
              ImageURL := ""
              ThumbURL := ""
              Footer := ""
              FooterIcon := ""
              Timestamp := 0 }] }]) := by
  simp only [processUpdateEvent]
  rw [if_neg hc, if_neg fun hh => hh h4]

/- ### Claim theorems -/

/-- C1: for every envelope and every iteration order of its ref updates,
if the ref updates before some position all succeed and that position's
processing fails (its delivery failed), then `processData` returns exactly
that error, the delivery trace contains only the attempts of the earlier
updates and of the failing one (nothing from the later updates is mapped or
delivered), and exactly the first `pre.length + 1` updates were examined. -/
theorem processData_fail_fast (send : slackMsg → Except String Unit)
    (d : data) (pre : List (String × updateEvent)) (k : String)
    (ev : updateEvent) (post : List (String × updateEvent)) (e : String)
    (hlist : d.RefUpdateEvent.RefUpdates = pre ++ (k, ev) :: post)
    (hpre : ∀ p ∈ pre, (processUpdateEvent send d p.2).1 = Except.ok ())
    (hfail : (processUpdateEvent send d ev).1 = Except.error e) :
    processData send d =
      (Except.error e,
       (pre.map fun p => (processUpdateEvent send d p.2).2).flatten ++
         (processUpdateEvent send d ev).2,
       pre.length + 1) := by
  unfold processData
  rw [hlist]
  clear hlist
  induction pre with
  | nil =>
    simpa using processDataLoop_cons_error send d k ev post e hfail
  | cons p rest ih =>
    have hp : (processUpdateEvent send d p.2).1 = Except.ok () :=
      hpre p (List.mem_cons_self p rest)
    have hrest : ∀ q ∈ rest, (processUpdateEvent send d q.2).1 =
        Except.ok () := fun q hq => hpre q (List.mem_cons_of_mem p hq)
    rcases p with ⟨kp, evp⟩
    rw [List.cons_append, processDataLoop_cons_ok send d kp evp _ hp,
      ih hrest]
    simp [List.append_assoc]

/-- C1 witness: an envelope with one succeeding and one failing update in
iteration order; processing returns the failure after examining exactly the
two updates, and the later updates (none here past the failing one) are
untouched. -/
theorem processData_fail_fast_witness :
    processData sendTwoFn dTwo =
      (Except.error "second down",
       (processUpdateEvent sendTwoFn dTwo evEx).2 ++
         (processUpdateEvent sendTwoFn dTwo evDel).2, 2) :=
  processData_fail_fast sendTwoFn dTwo [("x", evEx)] "y" evDel [("z", evEx)]
    "second down" rfl (by intro p hp; fin_cases hp; rfl) rfl

/-- C10: an envelope whose ref-update mapping is empty is processed
successfully with zero mapping steps and zero delivery attempts. -/
theorem processData_empty (send : slackMsg → Except String Unit) (d : data)
    (h : d.RefUpdateEvent.RefUpdates = []) :
    processData send d = (Except.ok (), [], 0) := by
  unfold processData
  rw [h]
  rfl

/-- C10 witness: the empty-updates envelope at a concrete delivery
oracle. -/
theorem processData_empty_witness :
    processData sendFailFn dEmpty = (Except.ok (), [], 0) :=
  processData_empty sendFailFn dEmpty rfl

/-- C2 counterexample: the claim says an envelope whose resource name has
more than 4 `/`-separated segments is skipped with no delivery, but for
the five-segment name `projects/p1/repos/r1/extra` (4 slashes) the
`SplitN`-limit-4 split still yields 4 parts, so the update is mapped and
its notification is delivered (one successful delivery attempt). -/
theorem processUpdateEvent_five_segments_delivers :
    (dFive.Name.toList.filter fun c => c = '/').length = 4 ∧
    (processUpdateEvent sendOkFn dFive evEx).2.length = 1 ∧
    (processUpdateEvent sendOkFn dFive evEx).1 = Except.ok () ∧
    ((processUpdateEvent sendOkFn dFive evEx).2.map fun m =>
      m.Attachments.map slackAttachment.TitleLink) =
      [["https://source.cloud.google.com/p1/r1/extra/+/abc123"]] := by
  refine ⟨by decide, by decide, by decide, by decide⟩

/-- C2 as amended: a ref update is skipped (no notification, no delivery,
success) exactly when the limit-4 split of the resource name yields fewer
than 4 parts, i.e. when the name has fewer than 4 `/`-separated segments;
a name with more than 4 segments still splits into 4 parts (the extra
segments stay attached to the fourth) and is not skipped. -/
theorem processUpdateEvent_skips_short_name
    (send : slackMsg → Except String Unit) (d : data) (ev : updateEvent)
    (h : (splitN d.Name '/' 4).length ≠ 4) :
    processUpdateEvent send d ev = (Except.ok (), []) := by
  by_cases hc : updateTypeColor ev.UpdateType = ""
  · simp [processUpdateEvent, hc]
  · simp [processUpdateEvent, hc, h]

/-- C2 witness: a three-segment resource name is skipped. -/
theorem processUpdateEvent_skips_short_name_witness :
    processUpdateEvent sendOkFn dShort evEx = (Except.ok (), []) :=
  processUpdateEvent_skips_short_name sendOkFn dShort evEx (by decide)

/-- C3 counterexample: the claim says a message whose processing failed is
nacked and not also acked, but the callback's `defer msg.Ack()` fires on
every return path: at a concrete message whose only update's delivery
fails, the handler issues `Nack` and then the deferred `Ack` — both
decisions. -/
theorem pullHandler_nack_then_ack :
    pullHandler (fun _ => some dEx) sendFailFn [] =
      [AckDecision.nack, AckDecision.ack] ∧
    AckDecision.nack ∈ pullHandler (fun _ => some dEx) sendFailFn [] ∧
    AckDecision.ack ∈ pullHandler (fun _ => some dEx) sendFailFn [] := by
  refine ⟨by decide, by decide, by decide⟩

/-- C3 as amended: the pull callback issues at least one acknowledge call
on every path and its FIRST call — the one the queue client honours, later
calls on an already-settled message being no-ops — is unique per message:
`Ack` on decode failure (without processing), `Ack` on success, and `Nack`
on processing failure; on the failure path the explicit `Nack` is followed
by the redundant deferred `Ack`, so that path issues both calls in that
order. -/
theorem pullHandler_decisions (decode : List Nat → Option data)
    (send : slackMsg → Except String Unit) (msgData : List Nat) :
    pullHandler decode send msgData ≠ [] ∧
    (decode msgData = none →
      pullHandler decode send msgData = [AckDecision.ack]) ∧
    (∀ d : data, decode msgData = some d →
      (processData send d).1 = Except.ok () →
      pullHandler decode send msgData = [AckDecision.ack]) ∧
    (∀ (d : data) (e : String), decode msgData = some d →
      (processData send d).1 = Except.error e →
      pullHandler decode send msgData = [AckDecision.nack, AckDecision.ack]) := by
  refine ⟨?_, ?_, ?_, ?_⟩
  · unfold pullHandler
    cases hd : decode msgData with
    | none => simp
    | some d =>
      cases hp : (processData send d).1 with
      | error e => simp [hp]
      | ok u => simp [hp]
  · intro h
    simp [pullHandler, h]
  · intro d hd hp
    simp [pullHandler, hd, hp]
  · intro d e hd hp
    simp [pullHandler, hd, hp]

/-- C3 applied at concrete inputs: a decode failure is acked, a successful
message is acked, a failing message is nacked first. -/
theorem pullHandler_decisions_witness :
    pullHandler (fun _ => none) sendOkFn [] = [AckDecision.ack] ∧
    pullHandler (fun _ => some dEx) sendOkFn [] = [AckDecision.ack] ∧
    pullHandler (fun _ => some dEx) sendFailFn [] =
      [AckDecision.nack, AckDecision.ack] := by
  refine ⟨(pullHandler_decisions (fun _ => none) sendOkFn []).2.1 rfl,
    (pullHandler_decisions (fun _ => some dEx) sendOkFn []).2.2.1 dEx rfl rfl,
    (pullHandler_decisions (fun _ => some dEx) sendFailFn []).2.2.2 dEx
      "boom" rfl rfl⟩

/-- C4: the classification→color lookup is exactly the fixed four-entry
table; a ref update of a well-formed envelope with a classification in the
table yields one delivered notification carrying the looked-up color, and
a ref update with any other classification string yields no notification,
no delivery attempt and a success result, whatever the envelope. -/
theorem updateTypeColor_classification (send : slackMsg → Except String Unit)
    (d : data) (ev : updateEvent) :
    (updateTypeColor "CREATE" = "#2e77ff" ∧
     updateTypeColor "UPDATE_FAST_FORWARD" = "#60ff55" ∧
     updateTypeColor "UPDATE_NON_FAST_FORWARD" = "#ff2e2e" ∧
     updateTypeColor "DELETE" = "#ff6d2e") ∧
    ((splitN d.Name '/' 4).length = 4 →
      updateTypeColor ev.UpdateType ≠ "" →
      ∃ m : slackMsg, processUpdateEvent send d ev = (send m, [m]) ∧
        m.Attachments.map slackAttachment.Color =
          [updateTypeColor ev.UpdateType]) ∧
    (ev.UpdateType ≠ "CREATE" → ev.UpdateType ≠ "UPDATE_FAST_FORWARD" →
     ev.UpdateType ≠ "UPDATE_NON_FAST_FORWARD" → ev.UpdateType ≠ "DELETE" →
      processUpdateEvent send d ev = (Except.ok (), [])) := by
  refine ⟨⟨rfl, rfl, rfl, rfl⟩, ?_, ?_⟩
  · intro h4 hc
    exact ⟨_, processUpdateEvent_not_skipped send d ev hc h4, rfl⟩
  · intro h1 h2 h3 h4
    have hc : updateTypeColor ev.UpdateType = "" := by
      simp [updateTypeColor, h1, h2, h3, h4]
    simp [processUpdateEvent, hc]

/-- C4 applied at concrete inputs: a `CREATE` update of the scenario-1
envelope is delivered with color `#2e77ff`, and the same envelope with
classification `UNKNOWN` is skipped with success. -/
theorem updateTypeColor_classification_witness :
    (∃ m : slackMsg, processUpdateEvent sendOkFn dEx evEx =
        (sendOkFn m, [m]) ∧
      m.Attachments.map slackAttachment.Color = ["#2e77ff"]) ∧
    processUpdateEvent sendOkFn dEx evUnknown = (Except.ok (), []) := by
  refine ⟨?_, ?_⟩
  · have h := (updateTypeColor_classification sendOkFn dEx evEx).2.1
      (by decide) (by decide)
    simpa using h
  · exact (updateTypeColor_classification sendOkFn dEx evUnknown).2.2
      (by decide) (by decide) (by decide) (by decide)

/-- C5: a non-skipped ref update produces exactly one outbound message
with exactly one attachment whose fallback is `{resourceName}:{refName}`,
whose title is the literal `Cloud Repo` with the commit URL as title link,
whose author name is the author e-mail, and whose fields are exactly the
five ordered pairs Repository→resourceName, Branch→refName,
Email→authorEmail, Update Type→raw classification, Commit SHA→newCommitID. -/
theorem processUpdateEvent_message_format
    (send : slackMsg → Except String Unit) (d : data) (ev : updateEvent)
    (hc : updateTypeColor ev.UpdateType ≠ "")
    (h4 : (splitN d.Name '/' 4).length = 4) :
    (processUpdateEvent send d ev).2 =
      [{ Text := ""
         Attachments := [
           { Fallback := d.Name ++ ":" ++ ev.RefName
             Color := updateTypeColor ev.UpdateType
             Pretext := ""
             AuthorName := d.RefUpdateEvent.Email
             AuthorLink := ""
             AuthorIcon := gravatarURL d.RefUpdateEvent.Email
             Title := "Cloud Repo"
             TitleLink := "https://source.cloud.google.com/" ++
               (splitN d.Name '/' 4).getD 1 "" ++ "/" ++
               (splitN d.Name '/' 4).getD 3 "" ++ "/+/" ++ ev.NewID
             Text := ""
             Fields := [
               { Title := "Repository", Value := d.Name, Short := false },
               { Title := "Branch", Value := ev.RefName, Short := false },
               { Title := "Email", Value := d.RefUpdateEvent.Email,
                 Short := false },
               { Title := "Update Type", Value := ev.UpdateType,
                 Short := false },
               { Title := "Commit SHA", Value := ev.NewID,
                 Short := false }]
             ImageURL := ""
             ThumbURL := ""
             Footer := ""
             FooterIcon := ""
             Timestamp := 0 }] }] := by
  rw [processUpdateEvent_not_skipped send d ev hc h4]

/-- C5 applied at the scenario-1 envelope: the one outbound message,
with every field spelled out. -/
theorem processUpdateEvent_message_format_witness :
    (processUpdateEvent sendOkFn dEx evEx).2 =
      [{ Text := ""
         Attachments := [
           { Fallback := "projects/p1/repos/r1:refs/heads/main"
             Color := "#2e77ff"
             Pretext := ""
             AuthorName := "a@b.com"
             AuthorLink := ""
             AuthorIcon := gravatarURL "a@b.com"
             Title := "Cloud Repo"
             TitleLink := "https://source.cloud.google.com/p1/r1/+/abc123"
             Text := ""
             Fields := [
               { Title := "Repository", Value := "projects/p1/repos/r1",
                 Short := false },
               { Title := "Branch", Value := "refs/heads/main",
                 Short := false },
               { Title := "Email", Value := "a@b.com", Short := false },
               { Title := "Update Type", Value := "CREATE",
                 Short := false },
               { Title := "Commit SHA", Value := "abc123",
                 Short := false }]
             ImageURL := ""
             ThumbURL := ""
             Footer := ""
             FooterIcon := ""
             Timestamp := 0 }] }] := by
  rw [processUpdateEvent_message_format sendOkFn dEx evEx (by decide)
    (by decide)]
  decide

/-- C6: the commit URL placed in the title link is the pure concatenation
`https://source.cloud.google.com/{projectID}/{repoName}/+/{newCommitID}`
of the split resource name's second and fourth parts and the new commit
id, with no escaping of any character. -/
theorem processUpdateEvent_commit_url
    (send : slackMsg → Except String Unit) (d : data) (ev : updateEvent)
    (hc : updateTypeColor ev.UpdateType ≠ "")
    (h4 : (splitN d.Name '/' 4).length = 4) :
    ((processUpdateEvent send d ev).2.map fun m =>
      m.Attachments.map slackAttachment.TitleLink) =
      [["https://source.cloud.google.com/" ++
        (splitN d.Name '/' 4).getD 1 "" ++ "/" ++
        (splitN d.Name '/' 4).getD 3 "" ++ "/+/" ++ ev.NewID]] := by
  rw [processUpdateEvent_not_skipped send d ev hc h4]
  rfl

/-- The byte-level MD5 model agrees with Go's `md5.Sum` on a known
digest. -/
example : md5hex (strBytes "a@b.com") = "357a20e8c56e69d6f9734d23ef9517e8" := by
  decide

/-- C7 counterexample: the claim says the avatar URL hashes the *trimmed*
author e-mail, so that e-mails differing only in surrounding whitespace
give the same URL; but `gravatarURL` hashes the raw bytes, and
`" a@b.com"` (a leading space only) and `"a@b.com"` give different URLs. -/
theorem gravatarURL_not_trimmed :
    gravatarURL (" " ++ "a@b.com") ≠ gravatarURL "a@b.com" := by decide

/-- C7 as amended: the avatar URL is empty for the empty e-mail; for every
non-empty e-mail it is the non-empty, deterministic URL built from the
lowercase hex digest of the 128-bit MD5 hash of the raw (untrimmed)
e-mail bytes — e-mails differing only in surrounding whitespace hash
differently. -/
theorem gravatarURL_spec :
    gravatarURL "" = "" ∧
    ∀ e : String, e ≠ "" →
      gravatarURL e ≠ "" ∧
      gravatarURL e = "http://gravatar.com/avatar/" ++ md5hex (strBytes e) ∧
      (md5hex (strBytes e)).length = 32 ∧
      ∀ c ∈ (md5hex (strBytes e)).toList, c ∈ "0123456789abcdef".toList := by
  refine ⟨rfl, ?_⟩
  intro e he
  have hurl : gravatarURL e =
      "http://gravatar.com/avatar/" ++ md5hex (strBytes e) := by
    simp [gravatarURL, he]
  have hlen : (md5hex (strBytes e)).length = 32 := by
    show (hexBytes (md5 (strBytes e))).length = 32
    rw [hexBytes_length, md5_length]
  refine ⟨?_, hurl, hlen, hexBytes_mem _⟩
  rw [hurl]
  intro hcontra
  have := congrArg String.length hcontra
  rw [String.length_append, hlen] at this
  simp at this

/-- C6 applied at the scenario-1 envelope `projects/p1/repos/r1` with new
commit id `abc123`: the commit URL is
`https://source.cloud.google.com/p1/r1/+/abc123`. -/
theorem processUpdateEvent_commit_url_witness :
    ((processUpdateEvent sendOkFn dEx evEx).2.map fun m =>
      m.Attachments.map slackAttachment.TitleLink) =
      [["https://source.cloud.google.com/p1/r1/+/abc123"]] := by
  rw [processUpdateEvent_commit_url sendOkFn dEx evEx (by decide)
    (by decide)]
  decide

/-- C8: with a configured (non-empty) destination URL, delivery performs
at most one HTTP POST (no retries), and reports success exactly when the
message serializes, the request builds and the response status is exactly
200; any other status, network error or serialization error is a non-nil
error. -/
theorem sendSlackMessage_single_post (url : String) (tp : Transport)
    (message : slackMsg) (h : url ≠ "") :
    (sendSlackMessage url tp message).2.2 ≤ 1 ∧
    ((sendSlackMessage url tp message).1 = Except.ok () ↔
      ∃ body : List Nat, tp.encode message = Except.ok body ∧
        tp.newRequest url body = Except.ok () ∧
        tp.doRequest body = NetResp.status 200) := by
  unfold sendSlackMessage
  rw [if_neg h]
  cases henc : tp.encode message with
  | error e => simp [henc]
  | ok body =>
    cases hreq : tp.newRequest url body with
    | error e => simp [henc, hreq]
    | ok u =>
      cases hdo : tp.doRequest body with
      | err e => simp [henc, hreq, hdo]
      | status code =>
        by_cases hcode : code = 200
        · subst hcode
          simp [henc, hreq, hdo]
        · simp [henc, hreq, hdo, hcode]

/-- C8 applied at a concrete URL, transport and message. -/
theorem sendSlackMessage_single_post_witness :
    (sendSlackMessage "https://example.com/hook" tpOk msgEmpty).2.2 ≤ 1 ∧
    ((sendSlackMessage "https://example.com/hook" tpOk msgEmpty).1 =
        Except.ok () ↔
      ∃ body : List Nat, tpOk.encode msgEmpty = Except.ok body ∧
        tpOk.newRequest "https://example.com/hook" body = Except.ok () ∧
        tpOk.doRequest body = NetResp.status 200) :=
  sendSlackMessage_single_post "https://example.com/hook" tpOk msgEmpty
    (by decide)

/-- C9: with an unconfigured (empty) destination URL, delivery is a no-op
success: no serialization, no HTTP request, no error, for every transport
and every message. -/
theorem sendSlackMessage_empty_url (tp : Transport) (message : slackMsg) :
    sendSlackMessage "" tp message = (Except.ok (), 0, 0) := rfl
